import Mathlib

/-!
Shallow embedding of `jfc::thread_group` (src/src/thread_group.cpp,
src/include/jfc/thread_group.h) and proofs about its specified behavior.

Tasks are opaque zero-argument work items; the embedding identifies a task by
an opaque token (`Nat`), since the pool never inspects a task's body.

The task queue (`moodycamel::ConcurrentQueue`) is a vendored third-party
dependency whose implementation is not part of this repository's sources; it
is modelled from the spec's queue contract (spec §4.1): `enqueue` /
`enqueue_bulk` insert items, `try_dequeue` atomically removes and returns one
item if available and otherwise reports empty, never blocking.  Concurrency is
modelled by traces: every atomic queue operation is one step, and arbitrary
interleavings of producers and consumers are arbitrary lists of steps.
-/

namespace JfcThreadGroup

/-- Opaque identity of a task (`thread_group::task_type` is
`std::function<void()>`; the pool treats it as an opaque unit of work). -/
abbrev task_type := Nat

/-- Modelled from the spec (§4.1), for the vendored
`moodycamel::ConcurrentQueue` not present under src/: `enqueue` inserts one
item. The queue is kept as the list of pending items. -/
def enqueue (q : List task_type) (t : task_type) : List task_type := q ++ [t]

/-- Modelled from the spec (§4.1): `enqueue_bulk` inserts a sequence of items
in order. -/
def enqueue_bulk (q ts : List task_type) : List task_type := q ++ ts

/-- Modelled from the spec (§4.1): `try_dequeue` removes and returns one item
if available, else reports empty. This is the single-consumer view used by
`try_get_task` and the worker loop. -/
def try_dequeue : List task_type → Option (task_type × List task_type)
  | [] => none
  | t :: rest => some (t, rest)

/-- Modelled from the spec (§3, §4.1): the dequeue order across concurrent
producers is unspecified, so a dequeue step removes the item at an arbitrary
position `k % length` chosen by the scheduler; on an empty queue it reports
empty. Every deterministic dequeue policy is an instance of this relation. -/
def try_dequeue_choice : List task_type → Nat → Option (task_type × List task_type)
  | [], _ => none
  | t :: rest, k =>
      some ((t :: rest).get ⟨k % (rest.length + 1), Nat.mod_lt _ (Nat.succ_pos _)⟩,
            (t :: rest).eraseIdx (k % (rest.length + 1)))

/-- `thread_group::shared_data_type` (thread_group.cpp lines 10-19): the task
queue and the atomic exit flag, jointly owned by the pool and its workers. -/
structure shared_data_type where
  m_Tasks : List task_type
  m_GroupIsDestroyed : Bool
deriving DecidableEq

/-- The pool object (thread_group.h lines 29-41): a shared-state handle
(`std::shared_ptr`, hence `Option`: `none` is the null handle of a moved-from
pool), the owned worker handles and their identity tokens. A worker handle is
identified by an opaque token (`Nat`); its loop behavior is modelled by
`worker_loop_step` below. -/
structure thread_group where
  m_SharedData : Option shared_data_type
  m_Threads : List Nat
  m_Thread_IDs : List Nat
deriving DecidableEq

/-- `thread_group::thread_count` (lines 21-24): size of the owned worker
collection. -/
def thread_count (g : thread_group) : Nat := g.m_Threads.length

/-- `thread_group::thread_ids` (lines 44-47): the stored identity tokens. -/
def thread_ids (g : thread_group) : List Nat := g.m_Thread_IDs

/-- Bulk `thread_group::add_tasks` (lines 26-29): dereferences `m_SharedData`
unconditionally and enqueues the whole sequence. `none` models the undefined
behavior of dereferencing a null (moved-from) shared-state handle. -/
def add_tasks_bulk (g : thread_group) (tasks : List task_type) : Option thread_group :=
  match g.m_SharedData with
  | none => none
  | some sd =>
      some { g with m_SharedData := some { sd with m_Tasks := enqueue_bulk sd.m_Tasks tasks } }

/-- Single-task `thread_group::add_tasks` (lines 30-33): dereferences
`m_SharedData` unconditionally and enqueues one task. -/
def add_tasks_one (g : thread_group) (task : task_type) : Option thread_group :=
  match g.m_SharedData with
  | none => none
  | some sd =>
      some { g with m_SharedData := some { sd with m_Tasks := enqueue sd.m_Tasks task } }

/-- `thread_group::try_get_task` (lines 35-42): dereferences `m_SharedData`
unconditionally; returns the dequeued task if one was available, else the
empty answer, together with the updated pool. -/
def try_get_task (g : thread_group) : Option (Option task_type × thread_group) :=
  match g.m_SharedData with
  | none => none
  | some sd =>
      match try_dequeue sd.m_Tasks with
      | some (t, rest) => some (some t, { g with m_SharedData := some { sd with m_Tasks := rest } })
      | none => some (none, g)

/-- `thread_group::operator=(thread_group&&)` (lines 49-60): plain member-wise
transfer. Line 51 overwrites the destination's shared-state handle (releasing
the previous one unmodified), lines 53-57 steal the thread and id vectors and
clear the source's thread vector; a moved-from `shared_ptr` is null and
moved-from vectors are empty. Returns (new destination, new source, the
destination's previously held shared state exactly as released: no flag store
and no join is performed on it). -/
def move_assign (dst src : thread_group) :
    thread_group × thread_group × Option shared_data_type :=
  (⟨src.m_SharedData, src.m_Threads, src.m_Thread_IDs⟩,
   ⟨none, [], []⟩,
   dst.m_SharedData)

/-- `thread_group::thread_group(thread_group&&)` (line 61): default-initializes
the members (null handle, empty vectors) and delegates to `operator=`. -/
def move_construct (src : thread_group) : thread_group × thread_group :=
  ((move_assign ⟨none, [], []⟩ src).1, (move_assign ⟨none, [], []⟩ src).2.1)

/-- Modelled from the spec (§4.4): move-assignment as the spec describes it,
destroy-then-transfer — first run the destination's destructor semantics
(if it owns workers, release its shared state with the termination flag set,
after joining), then transfer. Stated for comparison against `move_assign`,
which embeds the actual code. -/
def spec_move_assign (dst src : thread_group) :
    thread_group × thread_group × Option shared_data_type :=
  (⟨src.m_SharedData, src.m_Threads, src.m_Thread_IDs⟩,
   ⟨none, [], []⟩,
   if dst.m_Threads.isEmpty then dst.m_SharedData
   else Option.map (fun sd => { sd with m_GroupIsDestroyed := true }) dst.m_SharedData)

/-- Observable effect of `thread_group::~thread_group` (lines 96-104):
the shared state as released by the pool, whether the termination flag was
stored, and which worker handles were joined, in order. -/
structure destruct_effect where
  released : Option shared_data_type
  flag_stored : Bool
  joined : List Nat
deriving DecidableEq

/-- `thread_group::~thread_group` (lines 96-104): if the thread vector is
non-empty, store `true` into the shared termination flag and join every owned
worker; otherwise do nothing (the shared-state handle is released untouched,
and is never dereferenced). `none` models the null dereference that would
occur were the guard absent on a moved-from pool. -/
def thread_group_destruct (g : thread_group) : Option destruct_effect :=
  if g.m_Threads.isEmpty then some ⟨g.m_SharedData, false, []⟩
  else
    match g.m_SharedData with
    | none => none
    | some sd => some ⟨some { sd with m_GroupIsDestroyed := true }, true, g.m_Threads⟩

/-- `thread_group::thread_group(size_t)` (lines 63-88): fresh shared state
(empty queue, flag false), `threadNumber` spawned workers each with a stable
identity token recorded in `m_Thread_IDs`; tokens are modelled as `0, 1, ...`
(the OS-assigned `std::thread::id`s, distinct per worker). -/
def thread_group_ctor (threadNumber : Nat) : thread_group :=
  { m_SharedData := some { m_Tasks := [], m_GroupIsDestroyed := false },
    m_Threads := List.range threadNumber,
    m_Thread_IDs := List.range threadNumber }

/-- `thread_group::thread_group()` (lines 90-94): delegates to the sized
constructor with `hardware_concurrency - 1` when `hardware_concurrency > 1`,
else `0`. -/
def thread_group_default_ctor (hardware_concurrency : Nat) : thread_group :=
  thread_group_ctor (if hardware_concurrency > 1 then hardware_concurrency - 1 else 0)

/-- Outcome of one iteration of the worker loop body. -/
inductive worker_step_result
  | ran (t : task_type) (rest : List task_type)
  | retry
  | exited
deriving DecidableEq

/-- One iteration of the worker loop lambda (lines 72-84): attempt
`try_dequeue`; on success execute the task and continue (the flag is not
consulted); on failure, break if the flag is observed true, else retry. -/
def worker_loop_step (queue : List task_type) (groupIsDestroyed : Bool) : worker_step_result :=
  match try_dequeue queue with
  | some (t, rest) => worker_step_result.ran t rest
  | none => if groupIsDestroyed then worker_step_result.exited else worker_step_result.retry

/-- Fuel-bounded run of the worker loop against a queue with no concurrent
producer and a fixed flag value; returns the final queue and whether the loop
exited (rather than running out of fuel). -/
def worker_loop_run : List task_type → Bool → Nat → List task_type × Bool
  | q, _, 0 => (q, false)
  | q, flag, fuel + 1 =>
      match worker_loop_step q flag with
      | worker_step_result.ran _ rest => worker_loop_run rest flag fuel
      | worker_step_result.retry => worker_loop_run q flag fuel
      | worker_step_result.exited => (q, true)

/-- Results of `k` successive `try_get_task` calls driven by one caller;
stops early (unreachable for a valid pool) if the shared handle is null. -/
def tryGetN : thread_group → Nat → List (Option task_type)
  | _, 0 => []
  | g, k + 1 =>
      match try_get_task g with
      | none => []
      | some (r, g2) => r :: tryGetN g2 k

/-- One atomic queue event of an interleaved execution: a producer's
`add_tasks` (single = one-element list, bulk = the whole sequence), or a
consumer's dequeue attempt (a pool worker's or an external `try_get_task`
caller's), tagged with the consumer's identity and the scheduler's choice of
which available item the queue hands out. -/
inductive queue_op
  | enq (tasks : List task_type)
  | deq (consumer : Nat) (choice : Nat)
deriving DecidableEq

/-- Instrumented queue state of an interleaved execution: the pending queue,
every item ever enqueued (in producer order), and every successful delivery
as a (consumer, task) pair in delivery order. -/
structure queue_trace_state where
  queue : List task_type
  enqueued : List task_type
  delivered : List (Nat × task_type)
deriving DecidableEq

/-- Effect of one atomic queue event on the instrumented state. -/
def queue_step (s : queue_trace_state) : queue_op → queue_trace_state
  | queue_op.enq ts =>
      { s with queue := enqueue_bulk s.queue ts, enqueued := s.enqueued ++ ts }
  | queue_op.deq c k =>
      match try_dequeue_choice s.queue k with
      | some (t, rest) => { s with queue := rest, delivered := s.delivered ++ [(c, t)] }
      | none => s

/-- Run an arbitrary interleaving of producer and consumer events from the
empty queue. -/
def queue_run (ops : List queue_op) : queue_trace_state :=
  List.foldl queue_step ⟨[], [], []⟩ ops

theorem perm_get_cons_eraseIdx (q : List task_type) (i : Nat) (h : i < q.length) :
    q.Perm (q.get ⟨i, h⟩ :: q.eraseIdx i) := by
  have hmem : q.get ⟨i, h⟩ ∈ q := q.get_mem i h
  exact (List.perm_cons_erase hmem).trans ((List.erase_getElem h).cons _)

theorem queue_step_preserves (s : queue_trace_state) (op : queue_op)
    (h : (s.delivered.map Prod.snd ++ s.queue).Perm s.enqueued) :
    ((queue_step s op).delivered.map Prod.snd ++ (queue_step s op).queue).Perm
      (queue_step s op).enqueued := by
  cases op with
  | enq ts =>
      simpa [queue_step, enqueue_bulk, List.append_assoc] using h.append_right ts
  | deq c k =>
      rcases hq : s.queue with _ | ⟨t, rest⟩
      · simpa [queue_step, try_dequeue_choice, hq] using h
      · have hlen : k % (rest.length + 1) < (t :: rest).length :=
          Nat.mod_lt _ (Nat.succ_pos _)
        have hperm := perm_get_cons_eraseIdx (t :: rest) (k % (rest.length + 1)) hlen
        have h2 : (s.delivered.map Prod.snd ++ (t :: rest)).Perm s.enqueued := by
          rw [hq] at h; exact h
        simp only [queue_step, try_dequeue_choice, hq, List.map_append, List.map_cons,
          List.map_nil, List.append_assoc, List.singleton_append]
        exact ((hperm.symm.append_left (s.delivered.map Prod.snd)).trans h2)

theorem queue_foldl_preserves (ops : List queue_op) (s : queue_trace_state)
    (h : (s.delivered.map Prod.snd ++ s.queue).Perm s.enqueued) :
    ((List.foldl queue_step s ops).delivered.map Prod.snd ++
        (List.foldl queue_step s ops).queue).Perm (List.foldl queue_step s ops).enqueued := by
  induction ops generalizing s with
  | nil => exact h
  | cons op rest ih => exact ih _ (queue_step_preserves s op h)

theorem tryGetN_drain (q : List task_type) (flag : Bool) (th ids : List Nat) :
    tryGetN ⟨some ⟨q, flag⟩, th, ids⟩ (q.length + 1) = q.map some ++ [none] := by
  induction q with
  | nil => rfl
  | cons t rest ih =>
      simp only [tryGetN, try_get_task, try_dequeue, List.length_cons, List.map_cons,
        List.cons_append]
      exact congrArg (List.cons (some t)) ih

/-- C2: under any interleaving of concurrent producers (single and bulk
`add_tasks`) and consumers (pool workers and external `try_get_task` callers,
with the queue's hand-out order unspecified), the successful deliveries
together with the still-pending items are exactly the enqueued items — each
enqueued task is delivered to exactly one consumer call, none twice, none
lost; in particular, once the queue is observed empty, the number of
successful dequeues equals the number of tasks enqueued. -/
theorem exactly_once_delivery (ops : List queue_op) :
    ((queue_run ops).delivered.map Prod.snd ++ (queue_run ops).queue).Perm
        (queue_run ops).enqueued ∧
    ((queue_run ops).queue = [] →
      ((queue_run ops).delivered.map Prod.snd).Perm (queue_run ops).enqueued ∧
      (queue_run ops).delivered.length = (queue_run ops).enqueued.length) := by
  have h := queue_foldl_preserves ops ⟨[], [], []⟩ (by simp)
  refine ⟨h, fun hempty => ?_⟩
  rw [queue_run] at *
  rw [hempty, List.append_nil] at h
  exact ⟨h, by simpa using h.length_eq⟩

/-- C2 witness: a concrete interleaving (bulk enqueue of two tasks, one more
single enqueue, three dequeue attempts by two consumers) drains the queue and
delivers each task exactly once. -/
theorem exactly_once_delivery_witness :
    ((queue_run [queue_op.enq [7, 8], queue_op.enq [9], queue_op.deq 0 1,
        queue_op.deq 1 0, queue_op.deq 0 0]).delivered.map Prod.snd).Perm
      (queue_run [queue_op.enq [7, 8], queue_op.enq [9], queue_op.deq 0 1,
        queue_op.deq 1 0, queue_op.deq 0 0]).enqueued :=
  ((exactly_once_delivery
      [queue_op.enq [7, 8], queue_op.enq [9], queue_op.deq 0 1,
       queue_op.deq 1 0, queue_op.deq 0 0]).2 (by decide)).1

/-- C3: a pool constructed with zero workers owns no worker loops, so no task
executes until the caller drives `try_get_task` itself; after enqueuing the
sequence `tasks`, the first `tasks.length` calls each return a task (in order)
and the next call returns the empty answer. -/
theorem zero_worker_external_drain (tasks : List task_type) :
    (thread_group_ctor 0).m_Threads = [] ∧
    Option.map (fun g => tryGetN g (tasks.length + 1))
        (add_tasks_bulk (thread_group_ctor 0) tasks)
      = some (tasks.map some ++ [none]) := by
  refine ⟨rfl, ?_⟩
  simp only [thread_group_ctor, add_tasks_bulk, enqueue_bulk, List.nil_append, Option.map_some]
  exact congrArg some (tryGetN_drain tasks false (List.range 0) (List.range 0))

/-- C4: the worker loop exits only on an iteration where the dequeue attempt
came back empty and the termination flag was then observed true; after a
successful dequeue the task runs and the loop re-attempts dequeue without
consulting the flag; and a bounded run of the loop that does exit does so
with the queue empty under its own observation and the flag true. -/
theorem worker_exit_predicate :
    (∀ q flag, worker_loop_step q flag = worker_step_result.exited ↔ q = [] ∧ flag = true) ∧
    (∀ t rest flag, worker_loop_step (t :: rest) flag = worker_step_result.ran t rest) ∧
    (∀ q flag fuel q2, worker_loop_run q flag fuel = (q2, true) → q2 = [] ∧ flag = true) := by
  have hstep : ∀ q flag, worker_loop_step q flag = worker_step_result.exited ↔
      q = [] ∧ flag = true := by
    intro q flag
    cases q with
    | nil => cases flag <;> simp [worker_loop_step, try_dequeue]
    | cons t rest => simp [worker_loop_step, try_dequeue]
  refine ⟨hstep, fun t rest flag => rfl, ?_⟩
  intro q flag fuel
  induction fuel generalizing q with
  | zero => intro q2 h; exact absurd (congrArg Prod.snd h) (by simp [worker_loop_run])
  | succ n ih =>
      intro q2 h
      rcases hs : worker_loop_step q flag with _ | _ | _
      · rw [worker_loop_run, hs] at h; exact ih _ _ h
      · rw [worker_loop_run, hs] at h; exact ih _ _ h
      · rw [worker_loop_run, hs] at h
        obtain ⟨hq, hflag⟩ := (hstep q flag).mp hs
        cases h
        exact ⟨hq, hflag⟩

/-- C4 witness: on an empty queue with the flag observed true the loop exits;
concretely, a run from queue `[5]` with the flag true exits with the queue
drained. -/
theorem worker_exit_predicate_witness :
    worker_loop_step [] true = worker_step_result.exited ∧
    ([] = ([] : List task_type) ∧ true = true) :=
  ⟨(worker_exit_predicate.1 [] true).mpr ⟨rfl, rfl⟩,
   worker_exit_predicate.2.2 [5] true 3 [] (by decide)⟩

/-- C5: the destructor stores the termination flag and joins every owned
worker exactly when the pool owns at least one worker handle; with zero
workers it performs no flag store and no join, releasing the shared state —
and any pending tasks still in its queue — untouched. -/
theorem destructor_flag_join_iff_nonempty (g : thread_group) (sd : shared_data_type)
    (h : g.m_SharedData = some sd) :
    (g.m_Threads ≠ [] →
      thread_group_destruct g =
        some ⟨some { sd with m_GroupIsDestroyed := true }, true, g.m_Threads⟩) ∧
    (g.m_Threads = [] →
      thread_group_destruct g = some ⟨some sd, false, []⟩) := by
  constructor
  · intro hne
    have hemp : g.m_Threads.isEmpty = false := by
      cases hth : g.m_Threads with
      | nil => exact absurd hth hne
      | cons a l => rfl
    simp [thread_group_destruct, hemp, h]
  · intro hnil
    simp [thread_group_destruct, hnil, h]

/-- C5 witness: a one-worker pool with a pending task sets the flag and joins
its worker on destruction; the same pool without its worker does neither and
drops the pending task. -/
theorem destructor_flag_join_iff_nonempty_witness :
    thread_group_destruct ⟨some ⟨[3], false⟩, [0], [0]⟩ =
        some ⟨some ⟨[3], true⟩, true, [0]⟩ ∧
    thread_group_destruct ⟨some ⟨[3], false⟩, [], []⟩ =
        some ⟨some ⟨[3], false⟩, false, []⟩ :=
  ⟨(destructor_flag_join_iff_nonempty ⟨some ⟨[3], false⟩, [0], [0]⟩ ⟨[3], false⟩ rfl).1
      (by decide),
   (destructor_flag_join_iff_nonempty ⟨some ⟨[3], false⟩, [], []⟩ ⟨[3], false⟩ rfl).2 rfl⟩

/-- C6: after move-assignment or move-construction the source pool reports
`thread_count() = 0` and an empty `thread_ids()` list, and the destination
reports the source's original `thread_count()` and the identical
`thread_ids()` sequence. -/
theorem move_source_empty_dest_inherits (dst src : thread_group) :
    thread_count (move_assign dst src).2.1 = 0 ∧
    thread_ids (move_assign dst src).2.1 = [] ∧
    thread_count (move_assign dst src).1 = thread_count src ∧
    thread_ids (move_assign dst src).1 = thread_ids src ∧
    thread_count (move_construct src).2 = 0 ∧
    thread_ids (move_construct src).2 = [] ∧
    thread_count (move_construct src).1 = thread_count src ∧
    thread_ids (move_construct src).1 = thread_ids src :=
  ⟨rfl, rfl, rfl, rfl, rfl, rfl, rfl, rfl⟩

/-- C7: the sized constructor spawns exactly the requested number of worker
loops, `thread_count()` returns that number, and the identity tokens are one
per worker and pairwise distinct (stable identities). -/
theorem ctor_thread_count_and_ids (threadNumber : Nat) :
    thread_count (thread_group_ctor threadNumber) = threadNumber ∧
    (thread_ids (thread_group_ctor threadNumber)).length = threadNumber ∧
    (thread_ids (thread_group_ctor threadNumber)).Nodup := by
  refine ⟨?_, ?_, ?_⟩
  · simp [thread_count, thread_group_ctor]
  · simp [thread_ids, thread_group_ctor]
  · simpa [thread_ids, thread_group_ctor] using List.nodup_range threadNumber

/-- C8: the default constructor yields `hardware_concurrency - 1` workers when
the platform reports more than one hardware thread and `0` otherwise, i.e.
`max(hardware_concurrency - 1, 0)` workers. -/
theorem default_ctor_thread_count (hardware_concurrency : Nat) :
    thread_count (thread_group_default_ctor hardware_concurrency)
      = (max ((hardware_concurrency : Int) - 1) 0).toNat := by
  simp only [thread_group_default_ctor, thread_group_ctor, thread_count, List.length_range]
  split <;> omega

/-- C9: `add_tasks` (single and bulk) and `try_get_task` mutate only the
shared task queue: whenever such a call is defined, the worker-handle
collection and the identity-token collection of the resulting pool are
identical to the original's, so `thread_count()` and `thread_ids()` are
unchanged. -/
theorem enqueue_dequeue_frame (g g2 : thread_group) (tasks : List task_type)
    (task : task_type) (r : Option task_type) :
    (add_tasks_bulk g tasks = some g2 →
      g2.m_Threads = g.m_Threads ∧ g2.m_Thread_IDs = g.m_Thread_IDs ∧
      thread_count g2 = thread_count g ∧ thread_ids g2 = thread_ids g) ∧
    (add_tasks_one g task = some g2 →
      g2.m_Threads = g.m_Threads ∧ g2.m_Thread_IDs = g.m_Thread_IDs ∧
      thread_count g2 = thread_count g ∧ thread_ids g2 = thread_ids g) ∧
    (try_get_task g = some (r, g2) →
      g2.m_Threads = g.m_Threads ∧ g2.m_Thread_IDs = g.m_Thread_IDs ∧
      thread_count g2 = thread_count g ∧ thread_ids g2 = thread_ids g) := by
  rcases hsd : g.m_SharedData with _ | sd
  · refine ⟨?_, ?_, ?_⟩ <;>
      { intro h; simp [add_tasks_bulk, add_tasks_one, try_get_task, hsd] at h }
  · refine ⟨?_, ?_, ?_⟩
    · intro h
      simp only [add_tasks_bulk, hsd, Option.some_inj] at h
      subst h; exact ⟨rfl, rfl, rfl, rfl⟩
    · intro h
      simp only [add_tasks_one, hsd, Option.some_inj] at h
      subst h; exact ⟨rfl, rfl, rfl, rfl⟩
    · intro h
      rcases hdq : try_dequeue sd.m_Tasks with _ | ⟨t, rest⟩
      · simp only [try_get_task, hsd, hdq, Option.some_inj, Prod.mk.injEq] at h
        rw [← h.2]; exact ⟨rfl, rfl, rfl, rfl⟩
      · simp only [try_get_task, hsd, hdq, Option.some_inj, Prod.mk.injEq] at h
        rw [← h.2]; exact ⟨rfl, rfl, rfl, rfl⟩

/-- C9 witness: enqueuing into and dequeuing from a concrete two-worker pool
leaves its thread and id collections unchanged. -/
theorem enqueue_dequeue_frame_witness :
    add_tasks_bulk ⟨some ⟨[], false⟩, [0, 1], [0, 1]⟩ [4, 5]
        = some ⟨some ⟨[4, 5], false⟩, [0, 1], [0, 1]⟩ ∧
    ([0, 1] : List Nat) = [0, 1] :=
  ⟨by decide,
   ((enqueue_dequeue_frame ⟨some ⟨[], false⟩, [0, 1], [0, 1]⟩
        ⟨some ⟨[4, 5], false⟩, [0, 1], [0, 1]⟩ [4, 5] 4 none).1 (by decide)).1⟩

/-- C10: a moved-from pool holds the null shared-state handle, zero workers
and no identity tokens; `thread_count`, `thread_ids` and destruction stay
well-defined on it (the destructor's emptiness guard never dereferences the
null handle), while `add_tasks` (both overloads) and `try_get_task`
dereference the null handle and so have no defined result. -/
theorem moved_from_pool_safety (dst src : thread_group) (tasks : List task_type)
    (task : task_type) :
    (move_assign dst src).2.1.m_SharedData = none ∧
    thread_count (move_assign dst src).2.1 = 0 ∧
    thread_ids (move_assign dst src).2.1 = [] ∧
    thread_group_destruct (move_assign dst src).2.1 = some ⟨none, false, []⟩ ∧
    add_tasks_bulk (move_assign dst src).2.1 tasks = none ∧
    add_tasks_one (move_assign dst src).2.1 task = none ∧
    try_get_task (move_assign dst src).2.1 = none :=
  ⟨rfl, rfl, rfl, rfl, rfl, rfl, rfl⟩

/-- C1 counterexample: move-assigning onto a destination that still owns one
worker (with its termination flag unset) releases the destination's previous
shared state with the flag still false and joins nothing — it does not first
run the destination's destructor semantics, so move-assignment is not
destroy-then-transfer. -/
theorem move_assign_counterexample_not_destroy_then_transfer :
    (move_assign ⟨some ⟨[], false⟩, [0], [0]⟩ (thread_group_ctor 0)).2.2
        = some ⟨[], false⟩ ∧
    (spec_move_assign ⟨some ⟨[], false⟩, [0], [0]⟩ (thread_group_ctor 0)).2.2
        = some ⟨[], true⟩ ∧
    move_assign ⟨some ⟨[], false⟩, [0], [0]⟩ (thread_group_ctor 0)
        ≠ spec_move_assign ⟨some ⟨[], false⟩, [0], [0]⟩ (thread_group_ctor 0) := by
  decide

/-- C1 amended: move-assignment is a plain member-wise transfer — the
destination takes the source's shared-state handle, worker handles and
identity tokens, the source is left null and empty, and the destination's
previously held shared state is released with its termination flag unchanged
(no signal is sent to, and no join is performed on, any worker the
destination previously owned). -/
theorem move_assign_plain_transfer (dst src : thread_group) :
    (move_assign dst src).1.m_SharedData = src.m_SharedData ∧
    (move_assign dst src).1.m_Threads = src.m_Threads ∧
    (move_assign dst src).1.m_Thread_IDs = src.m_Thread_IDs ∧
    (move_assign dst src).2.1 = (⟨none, [], []⟩ : thread_group) ∧
    (move_assign dst src).2.2 = dst.m_SharedData ∧
    Option.map shared_data_type.m_GroupIsDestroyed (move_assign dst src).2.2
      = Option.map shared_data_type.m_GroupIsDestroyed dst.m_SharedData :=
  ⟨rfl, rfl, rfl, rfl, rfl, rfl⟩

end JfcThreadGroup
